import Mathlib

/-!
# Verification of the `stsci-announce` announcement widget

Shallow embedding of the two revisions of `stsci-announce` (the hardened
revision in `src/unnamed/part_000` and the simpler revision in
`src/src/index.ts`).  The embedding covers:

* the plain-text sanitizer `escapeHtml` in both revisions,
* the validated data model `Message` / `MessageBlock` / `AnnouncementsData`
  with their constructor-time validation and `toHtml` rendering,
* the untrusted-JSON entry point `jsonToAnnouncementsData`,
* the polling controller `RefreshAnnouncements.updateAnnouncements`
  (state machine: backoff, service state, modal opening), modelled as a
  pure step function on an explicit state record, one poll cycle per step.

Strings are modelled as sequences of Unicode scalar characters
(`String` in Lean, whose 4.14 representation is a packed `List Char`);
string length is modelled as character count.  JavaScript exceptions are
modelled with `Except`: the hardened revision's `ValidationError` becomes
`Except.error (PErr.validation msg)`, and the `TypeError` raised by a
property access on `null` becomes `Except.error PErr.typeError`.
-/

/-! ## Sanitizers -/

/-- Non-breaking space, the fourth character escaped by HTML text-node
serialization. -/
def nbspChar : Char := Char.ofNat 160

/-- Modelled from the spec: the browser's serialization of a text node read
back through `innerHTML` ("neutralizes all markup by rendering the string as
a text node and reading back the escaped form (e.g., `&`, `<`, `>` become
entities)").  Per the HTML fragment-serialization algorithm the characters
escaped in text position are exactly U+0026 to `&amp;`, U+00A0 to `&nbsp;`,
U+003C to `&lt;` and U+003E to `&gt;`.  This is the body of `escapeHtml`
in `src/unnamed/part_000` (`createTextNode` + `innerHTML`), whose DOM calls
are browser code, not repository code. -/
def escChar (c : Char) : List Char :=
  if c = '&' then "&amp;".data
  else if c = nbspChar then "&nbsp;".data
  else if c = '<' then "&lt;".data
  else if c = '>' then "&gt;".data
  else [c]

/-- Character-list version of the hardened revision's `escapeHtml`. -/
def escList : List Char → List Char
  | [] => []
  | c :: rest => escChar c ++ escList rest

/-- `escapeHtml` of `src/unnamed/part_000` (lines 32-36): append the input as
a text node to a fresh `div` and read back `div.innerHTML`, i.e. the
HTML-escaped form of the string. -/
def escapeHtml (s : String) : String := ⟨escList s.data⟩

/-- `escapeHtml` of `src/src/index.ts` (lines 12-16): append the input as a
text node to a fresh, detached `div` and read back `div.innerText`.
Modelled from the spec of the DOM: for an element that is not being
rendered, the `innerText` getter returns the element's descendant text
content, i.e. the original string unchanged — no escaping happens. -/
def escapeHtmlLegacy (s : String) : String := s

/-- Modelled from the spec: stands for the external `DOMPurify.sanitize`
call of `src/unnamed/part_000` (library code, not repository code).  No
claim in this development depends on its output, only on it being a pure
function of its input, so it is modelled as the identity transform. -/
def sanitizeHtml (s : String) : String := s

/-! ## JSON values and JavaScript property access -/

/-- Untrusted JSON values, as returned by `response.json()`.  JSON numbers
are IEEE doubles whose numeric value is irrelevant to every claim here
(no code path compares or computes with them); `num` therefore carries the
number's decimal string form, which is all the code can observe (via
string coercion). -/
inductive Json where
  | null
  | bool (b : Bool)
  | num (decimalForm : String)
  | str (s : String)
  | arr (elems : List Json)
  | obj (fields : List (String × Json))

/-- Is this JSON value `null`? -/
def Json.isNull : Json → Bool
  | .null => true
  | _ => false

/-- Errors a poll cycle's body can raise: the hardened revision's
`ValidationError` (carrying its human-readable message), or the `TypeError`
JavaScript raises when a property of `null` is accessed. -/
inductive PErr where
  | validation (msg : String)
  | typeError
deriving DecidableEq

/-- Field lookup on an object's field list; later duplicates override
earlier ones, as in `JSON.parse`. -/
def lookupField (fields : List (String × Json)) (k : String) : Option Json :=
  fields.foldl (fun acc kv => if kv.1 = k then some kv.2 else acc) none

/-- Total JavaScript property read: `none` is `undefined`.  Objects have
their own fields; primitives and arrays have none of the field names this
program reads. -/
def jLookup (j : Json) (k : String) : Option Json :=
  match j with
  | .obj fields => lookupField fields k
  | _ => none

/-- JavaScript property access `j[k]`: throws `TypeError` when `j` is
`null`, otherwise yields the field value or `undefined` (`none`). -/
def getField (j : Json) (k : String) : Except PErr (Option Json) :=
  match j with
  | .null => .error .typeError
  | _ => .ok (jLookup j k)

mutual

/-- JavaScript string coercion of a JSON value, as applied by
`document.createTextNode`. -/
def Json.jsToString : Json → String
  | .null => "null"
  | .bool true => "true"
  | .bool false => "false"
  | .num decimalForm => decimalForm
  | .str s => s
  | .arr es => Json.arrJoin es
  | .obj _ => "[object Object]"

/-- `Array.prototype.toString` = `join(",")`; `null` (and `undefined`)
elements become the empty string. -/
def Json.arrJoin : List Json → String
  | [] => ""
  | [.null] => ""
  | [e] => Json.jsToString e
  | .null :: rest => "," ++ Json.arrJoin rest
  | e :: rest => Json.jsToString e ++ "," ++ Json.arrJoin rest

end

/-- String coercion of a JavaScript value that may be `undefined`. -/
def optJsToString : Option Json → String
  | some j => j.jsToString
  | none => "undefined"

/-! ## Field-level checks (`Message` constructor regexes) -/

/-- ASCII digit, JavaScript's `\d`. -/
def isDig (c : Char) : Bool := '0' ≤ c && c ≤ '9'

/-- One character of the class `[a-zA-Z0-9_@.-]` (inside a class, `.` and a
trailing `-` are literal). -/
def isUserChar (c : Char) : Bool :=
  ('a' ≤ c && c ≤ 'z') || ('A' ≤ c && c ≤ 'Z') || isDig c ||
    c = '_' || c = '@' || c = '.' || c = '-'

/-- JavaScript's `.` outside a character class (no `s` flag): any character
except the four line terminators. -/
def jsDotChar (c : Char) : Bool :=
  !(c = Char.ofNat 10 || c = Char.ofNat 13 ||
    c = Char.ofNat 0x2028 || c = Char.ofNat 0x2029)

/-- `/^[a-zA-Z0-9_@.-]+$/.test u`: one or more characters of the class. -/
def usernameRegexTest (u : String) : Bool :=
  !u.data.isEmpty && u.data.all isUserChar

/-- The whole username condition of the `Message` constructor:
`username.length > 0 && username.length <= 32 && /^[a-zA-Z0-9_@.-]+$/.test(username)`
(the `typeof username === 'string'` conjunct is handled by `strCheck`). -/
def usernameOk (u : String) : Bool :=
  decide (0 < u.length) && decide (u.length ≤ 32) && usernameRegexTest u

/-- Shared head of the timestamp regex:
`^\d\d\d\d-\d\d-\d\dT\d\d:\d\d`, consuming `YYYY-MM-DDThh:mm` and
returning the remaining characters. -/
def tsHead : List Char → Option (List Char)
  | c1 :: c2 :: c3 :: c4 :: '-' :: c5 :: c6 :: '-' :: c7 :: c8 :: 'T' ::
      c9 :: c10 :: ':' :: c11 :: c12 :: rest =>
    if isDig c1 && isDig c2 && isDig c3 && isDig c4 && isDig c5 && isDig c6 &&
       isDig c7 && isDig c8 && isDig c9 && isDig c10 && isDig c11 && isDig c12
    then some rest else none
  | _ => none

/-- Innermost optional group `(\d\d\d)?$` of the timestamp regex. -/
def tsOptFrac2 : List Char → Bool
  | [] => true
  | [a, b, c] => isDig a && isDig b && isDig c
  | _ => false

/-- Optional group `(.\d\d\d(\d\d\d)?)?$` of the timestamp regex.  Note the
unescaped `.`: it matches any character except a line terminator. -/
def tsOptFrac : List Char → Bool
  | [] => true
  | x :: ds =>
    jsDotChar x &&
      (match ds with
       | a :: b :: c :: rest => isDig a && isDig b && isDig c && tsOptFrac2 rest
       | _ => false)

/-- Optional group `(:\d\d(.\d\d\d(\d\d\d)?)?)?$` of the timestamp regex. -/
def tsOptSec : List Char → Bool
  | [] => true
  | c :: rest =>
    if c = ':' then
      match rest with
      | a :: b :: rest2 => isDig a && isDig b && tsOptFrac rest2
      | _ => false
    else false

/-- `/^\d\d\d\d-\d\d-\d\dT\d\d:\d\d(:\d\d(.\d\d\d(\d\d\d)?)?)?$/.test t`,
the timestamp check of the `Message` constructor. -/
def timestampRegexTest (t : String) : Bool :=
  match tsHead t.data with
  | some rest => tsOptSec rest
  | none => false

/-- `/^\d+-\d\d:\d\d:\d\d$/.test e`, the expires check of the `Message`
constructor: one or more digits, then a literal `-hh:mm:ss` tail. -/
def expiresRegexTest (e : String) : Bool :=
  let ds := e.data.takeWhile isDig
  let rest := e.data.dropWhile isDig
  !ds.isEmpty &&
    (match rest with
     | ['-', h1, h2, ':', m1, m2, ':', s1, s2] =>
       isDig h1 && isDig h2 && isDig m1 && isDig m2 && isDig s1 && isDig s2
     | _ => false)

/-- `['debug', 'info', 'notice', 'warning', 'error', 'critical'].includes(level)`:
`includes` uses SameValueZero equality, so only those six strings pass. -/
def levelIncluded (v : Option Json) : Bool :=
  match v with
  | some (.str s) =>
    s == "debug" || s == "info" || s == "notice" || s == "warning" ||
      s == "error" || s == "critical"
  | _ => false

/-- `message.length > 0 && message.length <= 1024`. -/
def messageContentOk (m : String) : Bool :=
  decide (0 < m.length) && decide (m.length ≤ 1024)

/-- `typeof v === 'string' && p v`: a JavaScript value is a string
satisfying the given check. -/
def strCheck (v : Option Json) (p : String → Bool) : Bool :=
  match v with
  | some (.str s) => p s
  | _ => false

/-! ## Validated data model -/

/-- A constructed `Message`: five sanitized string fields. -/
structure Message where
  username : String
  timestamp : String
  expires : String
  level : String
  message : String
deriving DecidableEq

/-- The `Message` constructor of `src/unnamed/part_000` (lines 65-88): five
eager checks in source order, each failure raising `ValidationError` with
the source's message; on success the metadata fields are stored
`escapeHtml`-escaped and the body `sanitizeHtml`-sanitized.  When a check
passes, the checked argument is a string and `jsToString` returns it
unchanged. -/
def Message.validate (username timestamp expires level message : Option Json) :
    Except String Message :=
  if !(strCheck username usernameOk) then .error "Bad message username."
  else if !(strCheck timestamp timestampRegexTest) then .error "Bad message timestamp."
  else if !(strCheck expires expiresRegexTest) then .error "Bad expires time."
  else if !(levelIncluded level) then .error "Bad level setting."
  else if !(strCheck message messageContentOk) then .error "Bad message content."
  else .ok
    { username := escapeHtml (optJsToString username)
      timestamp := escapeHtml (optJsToString timestamp)
      expires := escapeHtml (optJsToString expires)
      level := escapeHtml (optJsToString level)
      message := sanitizeHtml (optJsToString message) }

/-- JavaScript `split('.')[0]`: the characters before the first `.`. -/
def takeUntilDot (s : String) : String := ⟨s.data.takeWhile (fun c => c != '.')⟩

/-- JavaScript `toUpperCase` (all stored strings it is applied to are
ASCII level names). -/
def toUpperString (s : String) : String := ⟨s.data.map Char.toUpper⟩

/-- `Message.fmtTimestamp`. -/
def Message.fmtTimestamp (m : Message) : String :=
  "<td class='announce-timestamp'>[" ++ takeUntilDot m.timestamp ++ "]</td>"

/-- `Message.fmtLevel`. -/
def Message.fmtLevel (m : Message) : String :=
  "<td class='announce-" ++ m.level ++ "'>" ++ toUpperString m.level ++ "</td>"

/-- `Message.fmtMessage`. -/
def Message.fmtMessage (m : Message) : String :=
  "<td class='announce-text'>" ++ m.message ++ "</td>"

/-- `Message.toHtml`: one table row. -/
def Message.toHtml (m : Message) : String :=
  "<tr>" ++ m.fmtTimestamp ++ " " ++ m.fmtLevel ++ " <td> &nbsp; </td> " ++
    m.fmtMessage ++ "</tr>"

/-- JavaScript `Array.prototype.join`. -/
def joinWith (sep : String) : List String → String
  | [] => ""
  | [s] => s
  | s :: rest => s ++ sep ++ joinWith sep rest

/-- A constructed `MessageBlock`. -/
structure MessageBlock where
  title : String
  messages : List Message
deriving DecidableEq

/-- The `MessageBlock` constructor of `src/unnamed/part_000` (lines
111-125).  The `Array.isArray(messages)` and `instanceof Message` checks
are true by typing in this embedding (the argument is a `List Message`). -/
def MessageBlock.validate (title : Option Json) (messages : List Message) :
    Except String MessageBlock :=
  if !(strCheck title fun t => decide (0 < t.length) && decide (t.length ≤ 128)) then
    .error "Bad title."
  else if decide (messages.length = 0) || decide (messages.length > 16) then
    .error "Bad messages array."
  else .ok { title := sanitizeHtml (optJsToString title), messages := messages }

/-- The non-empty branch of `MessageBlock.toHtml`, with the template
literal's exact text (indentation included). -/
def blockBodyHtml (title : String) (rows : List String) : String :=
  "<table class=\"announcement-block\">\n" ++
  "                        <theader>\n" ++
  "                            <p class='announce-block-title'>" ++ title ++ "</p>\n" ++
  "                        </theader>\n" ++
  "                        <tbody>\n" ++
  "                            " ++ joinWith "\n" rows ++ "\n" ++
  "                        </tbody>\n" ++
  "                    </table>"

/-- `MessageBlock.toHtml` (lines 127-140): empty string when there are no
messages, otherwise a table with the title row and one row per message in
array order. -/
def MessageBlock.toHtml (b : MessageBlock) : String :=
  if b.messages.length = 0 then ""
  else blockBodyHtml b.title (b.messages.map Message.toHtml)

/-- A constructed `AnnouncementsData`. -/
structure AnnouncementsData where
  popup : Bool
  timestamp : String
  blocks : List MessageBlock
deriving DecidableEq

/-- `typeof v === 'boolean'` with the boolean extracted. -/
def boolVal : Option Json → Option Bool
  | some (.bool b) => some b
  | _ => none

/-- The `AnnouncementsData` constructor of `src/unnamed/part_000` (lines
148-161).  The `Array.isArray(blocks)` and `instanceof MessageBlock`
checks are true by typing; `timestamp` is escaped, not pattern-validated. -/
def AnnouncementsData.validate (popup timestamp : Option Json)
    (blocks : List MessageBlock) : Except String AnnouncementsData :=
  match boolVal popup with
  | none => .error "Bad popup type."
  | some b =>
    .ok { popup := b, timestamp := escapeHtml (optJsToString timestamp), blocks := blocks }

/-- `AnnouncementsData.toHtml` (lines 163-172): empty string when there are
no blocks, otherwise one rendered block per block in array order. -/
def AnnouncementsData.toHtml (a : AnnouncementsData) : String :=
  if a.blocks.length = 0 then ""
  else
    "<div class=\"announcement\">\n" ++
    "                " ++ joinWith "\n" (a.blocks.map MessageBlock.toHtml) ++ "\n" ++
    "                        <p/>\n" ++
    "            </div>"

/-! ## Parser entry point `jsonToAnnouncementsData`

The parser is embedded in an instrumented form: alongside the
`Except`-result, each function returns the number of `Message` objects
successfully constructed during its run, making the fail-fast ordering
("... before any `Message` is constructed") a provable statement.  The
un-instrumented parser is the second projection. -/

/-- One `new Message(msg.username, msg.timestamp, msg.expires, msg.level,
msg.message)` step of `jsonToAnnouncementsData`: the five property reads
(left to right, `TypeError` on a `null` receiver) and then the `Message`
constructor.  The count is 1 exactly when a `Message` was constructed. -/
def parseMessageI (m : Json) : Nat × Except PErr Message :=
  match (do
    let u ← getField m "username"
    let t ← getField m "timestamp"
    let e ← getField m "expires"
    let lv ← getField m "level"
    let ms ← getField m "message"
    (Message.validate u t e lv ms).mapError PErr.validation) with
  | .ok msg => (1, .ok msg)
  | .error e => (0, .error e)

/-- `bdmessages.map(msg => new Message(...))`: left to right, aborting at
the first failure, counting the messages constructed before it. -/
def parseMessagesI : List Json → Nat × Except PErr (List Message)
  | [] => (0, .ok [])
  | m :: rest =>
    match parseMessageI m with
    | (c, .error e) => (c, .error e)
    | (c, .ok msg) =>
      match parseMessagesI rest with
      | (c2, r) => (c + c2, r.map (fun l => msg :: l))

/-- One block step of `jsonToAnnouncementsData` (lines 183-192): read
`blockData.messages`, reject unless it is an array of length 1-16, map the
messages, then `new MessageBlock(blockData.title, messages)`. -/
def parseBlockI (b : Json) : Nat × Except PErr MessageBlock :=
  match getField b "messages" with
  | .error e => (0, .error e)
  | .ok mv =>
    match mv with
    | some (.arr ms) =>
      if decide (ms.length ≤ 0) || decide (ms.length > 16) then
        (0, .error (.validation "Bad messages array."))
      else
        match parseMessagesI ms with
        | (c, .error e) => (c, .error e)
        | (c, .ok msgs) =>
          match getField b "title" with
          | .error e => (c, .error e)
          | .ok tv => (c, (MessageBlock.validate tv msgs).mapError PErr.validation)
    | _ => (0, .error (.validation "Bad messages array."))

/-- `jsonData.blocks.map(blockData => ...)`, aborting at the first failure
and accumulating the count of constructed messages. -/
def parseBlocksI : List Json → Nat × Except PErr (List MessageBlock)
  | [] => (0, .ok [])
  | b :: rest =>
    match parseBlockI b with
    | (c, .error e) => (c, .error e)
    | (c, .ok blk) =>
      match parseBlocksI rest with
      | (c2, r) => (c + c2, r.map (fun l => blk :: l))

/-- Instrumented `jsonToAnnouncementsData` (lines 175-195): reject unless
`jsonData.blocks` is an array (a `TypeError` for a `null` input), map the
blocks, then `new AnnouncementsData(jsonData.popup, jsonData.timestamp,
blocks)` with its argument property reads. -/
def jsonToAnnouncementsDataI (j : Json) : Nat × Except PErr AnnouncementsData :=
  match getField j "blocks" with
  | .error e => (0, .error e)
  | .ok bv =>
    match bv with
    | some (.arr bs) =>
      match parseBlocksI bs with
      | (c, .error e) => (c, .error e)
      | (c, .ok blocks) =>
        match getField j "popup" with
        | .error e => (c, .error e)
        | .ok pv =>
          match getField j "timestamp" with
          | .error e => (c, .error e)
          | .ok tv => (c, (AnnouncementsData.validate pv tv blocks).mapError PErr.validation)
    | _ => (0, .error (.validation "Bad blocks array."))

/-- `jsonToAnnouncementsData`: result of a parse, construction counts
forgotten. -/
def jsonToAnnouncementsData (j : Json) : Except PErr AnnouncementsData :=
  (jsonToAnnouncementsDataI j).2

/-! ## Poller / controller `RefreshAnnouncements` -/

/-- `serviceState` values. -/
inductive ServiceState where
  | normal
  | degraded
  | failed
deriving DecidableEq

/-- The mutable fields of a `RefreshAnnouncements` instance that a poll
cycle reads or writes.  `hasButton` tracks whether `openAnnouncementButton`
is non-null (the button, once registered, is only relabelled). -/
structure PollerState where
  last_rendered : String
  newAnnouncement : Bool
  retryDelay : Nat
  serviceState : ServiceState
  hasButton : Bool
deriving DecidableEq

/-- `this.initialRetryDelay = 10000` (10 seconds). -/
def initialRetryDelay : Nat := 10000

/-- `this.maxRetryDelay = 600000` (10 minutes). -/
def maxRetryDelay : Nat := 600000

/-- The `RefreshAnnouncements` constructor (lines 218-227). -/
def PollerState.init : PollerState :=
  { last_rendered := ""
    newAnnouncement := false
    retryDelay := initialRetryDelay
    serviceState := .normal
    hasButton := false }

/-- What one poll cycle's fetch produced: a rejected fetch (network /
connectivity fault), or a response with its HTTP status and its body
(`none` when the body is not valid JSON, so that `response.json()`
rejects). -/
inductive CycleInput where
  | netFail
  | resp (status : Nat) (body : Option Json)

/-- The externally visible effects of one poll cycle: the `setTimeout`
delay used to schedule the next cycle, whether the modal was opened
(`openAnnouncements`), and whether the transient recovery notification was
shown. -/
structure StepOut where
  delay : Nat
  modalOpened : Bool
  recoveryShown : Bool
deriving DecidableEq

/-- `isPermissionError` (lines 230-232). -/
def isPermissionError (status : Nat) : Bool :=
  status == 401 || status == 403 || status == 407

/-- `shouldRetry` (lines 234-238): permission errors and 5xx. -/
def shouldRetry (status : Nat) : Bool :=
  isPermissionError status || (decide (500 ≤ status) && decide (status < 600))

/-- `response.ok`: status in the range 200-299. -/
def respOk (status : Nat) : Bool :=
  decide (200 ≤ status) && decide (status ≤ 299)

/-- The generic `catch` branch of `updateAnnouncements` for connectivity
faults (lines 400-441): at the backoff ceiling, enter `failed`, ensure the
button exists, reset the delay and reschedule at the base interval;
otherwise enter `degraded`, ensure the button exists, reschedule after the
current `retryDelay` and then double it, capped at the maximum. -/
def RefreshAnnouncements.onFetchError (st : PollerState) (n : Nat) :
    PollerState × StepOut :=
  if st.retryDelay ≥ maxRetryDelay then
    ({ st with serviceState := .failed, hasButton := true,
               retryDelay := initialRetryDelay },
     { delay := n, modalOpened := false, recoveryShown := false })
  else
    ({ st with serviceState := .degraded, hasButton := true,
               retryDelay := min (st.retryDelay * 2) maxRetryDelay },
     { delay := st.retryDelay, modalOpened := false, recoveryShown := false })

/-- One cycle of `RefreshAnnouncements.updateAnnouncements` of
`src/unnamed/part_000` (lines 304-448) as a pure step: state before the
cycle, the fetch's outcome, and the base interval `n` in, state after the
cycle and the cycle's effects out.

Branches, in source order: a retryable non-2xx status or a rejected fetch
or a JSON-parse failure or a `TypeError` during parsing lands in the
generic `catch` (`onFetchError`); a non-retryable non-2xx status resets
backoff to normal and reschedules at `n`; a `ValidationError` leaves the
state untouched and reschedules at `n`; a validated payload renders,
resets backoff, updates `last_rendered` / `newAnnouncement` on change,
and — when the rendering is non-empty — ensures the button and opens the
modal when the announcement is new and `popup` is set (`openAnnouncements`
clears `newAnnouncement`). -/
def RefreshAnnouncements.step (st : PollerState) (inp : CycleInput) (n : Nat) :
    PollerState × StepOut :=
  match inp with
  | .netFail => RefreshAnnouncements.onFetchError st n
  | .resp status body =>
    if !respOk status && shouldRetry status then
      RefreshAnnouncements.onFetchError st n
    else if !respOk status then
      ({ st with retryDelay := initialRetryDelay, serviceState := .normal },
       { delay := n, modalOpened := false,
         recoveryShown := st.serviceState ≠ .normal && st.hasButton })
    else
      match body with
      | none => RefreshAnnouncements.onFetchError st n
      | some j =>
        match jsonToAnnouncementsData j with
        | .error (.validation _) =>
          (st, { delay := n, modalOpened := false, recoveryShown := false })
        | .error .typeError => RefreshAnnouncements.onFetchError st n
        | .ok ann =>
          let rendered := ann.toHtml
          let wasDegraded := st.serviceState ≠ .normal
          let lastR := if rendered = st.last_rendered then st.last_rendered else rendered
          let newA := if rendered = st.last_rendered then st.newAnnouncement else true
          if 0 < lastR.length then
            let modal := newA && ann.popup
            ({ last_rendered := lastR
               newAnnouncement := if modal then false else newA
               retryDelay := initialRetryDelay
               serviceState := .normal
               hasButton := true },
             { delay := n, modalOpened := modal, recoveryShown := wasDegraded })
          else
            ({ last_rendered := lastR
               newAnnouncement := newA
               retryDelay := initialRetryDelay
               serviceState := .normal
               hasButton := st.hasButton },
             { delay := n, modalOpened := false, recoveryShown := false })

/-- State after `k` consecutive connectivity faults with base interval `n`. -/
def iterFaults (n : Nat) : Nat → PollerState → PollerState
  | 0, st => st
  | k + 1, st => iterFaults n k (RefreshAnnouncements.step st .netFail n).1

/-- The reschedule delays of `k` consecutive connectivity faults with base
interval `n`. -/
def faultDelays (n : Nat) : Nat → PollerState → List Nat
  | 0, _ => []
  | k + 1, st =>
    (RefreshAnnouncements.step st .netFail n).2.delay ::
      faultDelays n k (RefreshAnnouncements.step st .netFail n).1

/-! ## Infrastructure for statements -/

instance {ε α : Type} [DecidableEq ε] [DecidableEq α] : DecidableEq (Except ε α) := fun x y =>
  match x, y with
  | .ok a, .ok b =>
    if h : a = b then .isTrue (by rw [h]) else .isFalse (fun hh => h (Except.ok.inj hh))
  | .error e, .error f =>
    if h : e = f then .isTrue (by rw [h]) else .isFalse (fun hh => h (Except.error.inj hh))
  | .ok _, .error _ => .isFalse (fun hh => Except.noConfusion hh)
  | .error _, .ok _ => .isFalse (fun hh => Except.noConfusion hh)

/-- Did the computation succeed? -/
def isOkB {ε α : Type} : Except ε α → Bool
  | .ok _ => true
  | .error _ => false

/-- The result is either a success or a `ValidationError` — not a
`TypeError` (or any other generic fault). -/
def okOrValidation {α : Type} : Except PErr α → Bool
  | .ok _ => true
  | .error (.validation _) => true
  | .error .typeError => false

/-- `okOrValidation` only looks at the error, so `Except.map` preserves it. -/
theorem okOrValidation_map {α β : Type} (f : α → β) (r : Except PErr α) :
    okOrValidation (r.map f) = okOrValidation r := by
  cases r with
  | ok a => rfl
  | error e => cases e <;> simp [Except.map, okOrValidation]

/-- `mapError PErr.validation` never produces a `TypeError`. -/
theorem okOrValidation_mapError {α : Type} (r : Except String α) :
    okOrValidation (r.mapError PErr.validation) = true := by
  cases r with
  | ok a => rfl
  | error e => simp [Except.mapError, okOrValidation]

/-! ## C1: the plain-text sanitizer -/

/-- Each character's escaped form contains no `<` and no `>`. -/
theorem escChar_no_markup (c : Char) :
    (escChar c).all (fun d => !(d = '<' || d = '>')) = true := by
  unfold escChar
  split
  · decide
  · split
    · decide
    · split
      · decide
      · split
        · decide
        · rename_i h1 h2 h3 h4
          simp [h3, h4]

/-- No character of an escaped character list is `<` or `>`. -/
theorem escList_no_markup (l : List Char) :
    (escList l).all (fun d => !(d = '<' || d = '>')) = true := by
  induction l with
  | nil => rfl
  | cons c rest ih =>
    simp only [escList, List.all_append, Bool.and_eq_true]
    exact ⟨escChar_no_markup c, ih⟩

/-- C1.  The claim is right about the hardened revision and wrong about the
code of `src/src/index.ts`: there, `escapeHtml` reads back `innerText` of a
detached `div`, which returns the raw text unchanged, so its output
reproduces `<` and `>` verbatim — contradicting the function's own comment
("quickly and safely escape the string").  First conjunct: the hardened
revision's `escapeHtml` (innerHTML read-back) outputs no `<` or `>`
character at all (every `&`, `<`, `>` of the input becomes an entity, and
entities contain neither character).  Second conjunct: the simple
revision's `escapeHtml` returns the failing input `"<script>"` verbatim,
with its unescaped `<` and `>`. -/
theorem C1_escapeHtml_no_markup :
    (∀ s : String, (escapeHtml s).data.all (fun d => !(d = '<' || d = '>')) = true) ∧
      escapeHtmlLegacy "<script>" = "<script>" ∧
      ("<script>".data.contains '<' = true) := by
  refine ⟨fun s => ?_, rfl, by decide⟩
  exact escList_no_markup s.data

/-! ## C2: the parser's failure modes -/

/-- No property of the message value is read off `null`. -/
def msgNoNull (m : Json) : Bool := !m.isNull

/-- No property read of this block hits `null`: the block itself is not
`null`, and if its `messages` field is an array, none of its elements is
`null`. -/
def blockNoNull (b : Json) : Bool :=
  !b.isNull &&
    (match jLookup b "messages" with
     | some (.arr ms) => ms.all msgNoNull
     | _ => true)

/-- No property read of the whole parse hits `null`: the input is not
`null`, and if its `blocks` field is an array, every element satisfies
`blockNoNull`. -/
def noNullDeref (j : Json) : Bool :=
  !j.isNull &&
    (match jLookup j "blocks" with
     | some (.arr bs) => bs.all blockNoNull
     | _ => true)

/-- A non-`TypeError` error stays a non-`TypeError` when re-raised at
another result type. -/
theorem okOrValidation_error_trans {α β : Type} (e : PErr)
    (h : okOrValidation (.error e : Except PErr α) = true) :
    okOrValidation (.error e : Except PErr β) = true := by
  cases e <;> simp_all [okOrValidation]

/-- Property access on a non-`null` value never raises. -/
theorem getField_of_not_null (j : Json) (k : String) (h : j.isNull = false) :
    getField j k = .ok (jLookup j k) := by
  cases j <;> simp_all [Json.isNull, getField]

/-- Parsing one message value that is not `null` fails only with a
validation error. -/
theorem parseMessageI_okOrValidation (m : Json) (h : m.isNull = false) :
    okOrValidation (parseMessageI m).2 = true := by
  unfold parseMessageI
  rw [getField_of_not_null m "username" h, getField_of_not_null m "timestamp" h,
      getField_of_not_null m "expires" h, getField_of_not_null m "level" h,
      getField_of_not_null m "message" h]
  simp only [bind, Except.bind]
  cases hv : (Message.validate (jLookup m "username") (jLookup m "timestamp")
      (jLookup m "expires") (jLookup m "level") (jLookup m "message")).mapError
      PErr.validation with
  | ok msg => simp [okOrValidation]
  | error e =>
    have := okOrValidation_mapError (Message.validate (jLookup m "username")
      (jLookup m "timestamp") (jLookup m "expires") (jLookup m "level")
      (jLookup m "message"))
    rw [hv] at this
    simpa using this

/-- Mapping `Message` construction over a list of non-`null` values fails
only with a validation error. -/
theorem parseMessagesI_okOrValidation (ms : List Json)
    (h : ms.all msgNoNull = true) :
    okOrValidation (parseMessagesI ms).2 = true := by
  induction ms with
  | nil => rfl
  | cons m rest ih =>
    rw [List.all_cons, Bool.and_eq_true] at h
    have hm := parseMessageI_okOrValidation m (by simpa [msgNoNull] using h.1)
    unfold parseMessagesI
    cases hp : parseMessageI m with
    | mk c r =>
      cases r with
      | error e =>
        rw [hp] at hm
        exact okOrValidation_error_trans e hm
      | ok msg =>
        cases hr : parseMessagesI rest with
        | mk c2 r2 =>
          have := ih h.2
          rw [hr] at this
          simpa [okOrValidation_map] using this

/-- Parsing one block value satisfying `blockNoNull` fails only with a
validation error. -/
theorem parseBlockI_okOrValidation (b : Json) (h : blockNoNull b = true) :
    okOrValidation (parseBlockI b).2 = true := by
  rw [blockNoNull, Bool.and_eq_true] at h
  obtain ⟨hb, hinner⟩ := h
  unfold parseBlockI
  rw [getField_of_not_null b "messages" (by simpa using hb)]
  cases hm : jLookup b "messages" with
  | none => simp [okOrValidation]
  | some v =>
    cases v with
    | null => simp [okOrValidation]
    | bool bb => simp [okOrValidation]
    | num r => simp [okOrValidation]
    | str s => simp [okOrValidation]
    | obj fs => simp [okOrValidation]
    | arr ms =>
      rw [hm] at hinner
      simp only
      split
      · simp [okOrValidation]
      · cases hms : parseMessagesI ms with
        | mk c r =>
          cases r with
          | error e =>
            have := parseMessagesI_okOrValidation ms (by simpa using hinner)
            rw [hms] at this
            exact okOrValidation_error_trans e this
          | ok msgs =>
            rw [getField_of_not_null b "title" (by simpa using hb)]
            simpa using okOrValidation_mapError (MessageBlock.validate (jLookup b "title") msgs)

/-- Mapping block parsing over a list of values satisfying `blockNoNull`
fails only with a validation error. -/
theorem parseBlocksI_okOrValidation (bs : List Json)
    (h : bs.all blockNoNull = true) :
    okOrValidation (parseBlocksI bs).2 = true := by
  induction bs with
  | nil => rfl
  | cons b rest ih =>
    rw [List.all_cons, Bool.and_eq_true] at h
    have hb := parseBlockI_okOrValidation b h.1
    unfold parseBlocksI
    cases hp : parseBlockI b with
    | mk c r =>
      cases r with
      | error e =>
        rw [hp] at hb
        exact okOrValidation_error_trans e hb
      | ok blk =>
        cases hr : parseBlocksI rest with
        | mk c2 r2 =>
          have := ih h.2
          rw [hr] at this
          simpa [okOrValidation_map] using this

/-- C2, counterexample.  The claim quantifies over every input value
"including null", but `jsonToAnnouncementsData(null)` evaluates
`null.blocks`, which raises a `TypeError` — a generic JavaScript fault,
not the `ValidationError` kind — so the function does fail with another
kind of fault. -/
theorem C2_null_counterexample :
    jsonToAnnouncementsData Json.null = .error .typeError ∧
      okOrValidation (jsonToAnnouncementsData Json.null) = false := by
  exact ⟨rfl, rfl⟩

/-- C2, amended.  For every input value in which no property is read off
`null` — the input itself is not `null`, and (when the respective fields
are arrays) no element of `blocks` and no element of a block's `messages`
is `null` — `jsonToAnnouncementsData` either returns a fully validated
`AnnouncementsData` or fails with the distinguishable validation-error
kind (`PErr.validation`, carrying the human-readable reason), never with
any other kind of fault.  Inputs that do read a property off `null` fail
with a `TypeError` instead (see the counterexample). -/
theorem C2_parser_okOrValidation (j : Json) (h : noNullDeref j = true) :
    okOrValidation (jsonToAnnouncementsData j) = true := by
  rw [noNullDeref, Bool.and_eq_true] at h
  obtain ⟨hj, hinner⟩ := h
  unfold jsonToAnnouncementsData jsonToAnnouncementsDataI
  rw [getField_of_not_null j "blocks" (by simpa using hj)]
  cases hb : jLookup j "blocks" with
  | none => simp [okOrValidation]
  | some v =>
    cases v with
    | null => simp [okOrValidation]
    | bool bb => simp [okOrValidation]
    | num r => simp [okOrValidation]
    | str s => simp [okOrValidation]
    | obj fs => simp [okOrValidation]
    | arr bs =>
      rw [hb] at hinner
      dsimp only
      cases hbs : parseBlocksI bs with
      | mk c r =>
        cases r with
        | error e =>
          have := parseBlocksI_okOrValidation bs (by simpa using hinner)
          rw [hbs] at this
          dsimp only
          exact okOrValidation_error_trans e this
        | ok blocks =>
          rw [getField_of_not_null j "popup" (by simpa using hj),
              getField_of_not_null j "timestamp" (by simpa using hj)]
          dsimp only
          exact okOrValidation_mapError
            (AnnouncementsData.validate (jLookup j "popup") (jLookup j "timestamp") blocks)

/-- C2, witness: a concrete null-free input on which the amended theorem
applies (here the parse fails with the validation error for the missing
`popup` boolean, which is still the validation kind). -/
theorem C2_parser_okOrValidation_witness :
    okOrValidation (jsonToAnnouncementsData (Json.obj [("blocks", Json.arr [])])) = true :=
  C2_parser_okOrValidation (Json.obj [("blocks", Json.arr [])]) (by decide)

/-! ## C3: exponential backoff with ceiling -/

/-- C3.  Connectivity-fault backoff.  Below the ceiling, a connectivity
fault sets `serviceState` to `degraded`, reschedules after the current
`retryDelay`, and doubles `retryDelay` capped at `maxRetryDelay = 600000`.
Once `retryDelay` has reached the ceiling, the next fault sets
`serviceState` to `failed`, resets `retryDelay` to `initialRetryDelay =
10000`, and reschedules after the base interval `n`, not a backoff delay.
Concretely, from the freshly constructed state, seven consecutive faults
reschedule after 10000, 20000, 40000, 80000, 160000, 320000 and then the
base interval (the sixth fault doubles `retryDelay` to the 600000 cap, so
the seventh fault is the first at the ceiling and triggers the `failed`
reset). -/
theorem C3_backoff :
    (∀ (st : PollerState) (n : Nat), st.retryDelay < maxRetryDelay →
      RefreshAnnouncements.step st .netFail n =
        ({ st with serviceState := .degraded, hasButton := true,
                   retryDelay := min (st.retryDelay * 2) maxRetryDelay },
         { delay := st.retryDelay, modalOpened := false, recoveryShown := false })) ∧
    (∀ (st : PollerState) (n : Nat), maxRetryDelay ≤ st.retryDelay →
      RefreshAnnouncements.step st .netFail n =
        ({ st with serviceState := .failed, hasButton := true,
                   retryDelay := initialRetryDelay },
         { delay := n, modalOpened := false, recoveryShown := false })) ∧
    faultDelays 345678 7 PollerState.init =
      [10000, 20000, 40000, 80000, 160000, 320000, 345678] ∧
    (iterFaults 345678 6 PollerState.init).retryDelay = maxRetryDelay ∧
    (iterFaults 345678 7 PollerState.init).serviceState = .failed ∧
    (iterFaults 345678 7 PollerState.init).retryDelay = initialRetryDelay := by
  refine ⟨fun st n h => ?_, fun st n h => ?_, by decide, by decide, by decide, by decide⟩
  · simp [RefreshAnnouncements.step, RefreshAnnouncements.onFetchError, Nat.not_le.mpr h]
  · simp [RefreshAnnouncements.step, RefreshAnnouncements.onFetchError, h]

/-- C3, witness: the two implications applied at concrete states — a fresh
state (delay 10000 < 600000, so degraded and doubling) and a state at the
ceiling (failed, reset, base interval 2500). -/
theorem C3_backoff_witness :
    RefreshAnnouncements.step PollerState.init .netFail 2500 =
      ({ PollerState.init with serviceState := .degraded, hasButton := true,
                               retryDelay := min (PollerState.init.retryDelay * 2) maxRetryDelay },
       { delay := PollerState.init.retryDelay, modalOpened := false, recoveryShown := false }) ∧
    RefreshAnnouncements.step { PollerState.init with retryDelay := 600000 } .netFail 2500 =
      ({ PollerState.init with serviceState := .failed, hasButton := true,
                               retryDelay := initialRetryDelay },
       { delay := 2500, modalOpened := false, recoveryShown := false }) :=
  ⟨C3_backoff.1 PollerState.init 2500 (by decide),
   C3_backoff.2.1 { PollerState.init with retryDelay := 600000 } 2500 (by decide)⟩

/-! ## C4: validation faults leave the poller state untouched -/

/-- C4.  When a 2xx response's JSON body fails validation
(`jsonToAnnouncementsData` raises a `ValidationError`), the cycle leaves
every poller field unchanged — `last_rendered`, `newAnnouncement`,
`serviceState`, `retryDelay` (and the button) — opens no modal, and
reschedules after the normal interval `n`, not a backoff delay. -/
theorem C4_validation_frame (st : PollerState) (n : Nat) (j : Json) (msg : String)
    (h : jsonToAnnouncementsData j = .error (.validation msg)) :
    RefreshAnnouncements.step st (.resp 200 (some j)) n =
      (st, { delay := n, modalOpened := false, recoveryShown := false }) := by
  simp [RefreshAnnouncements.step, h, respOk, shouldRetry, isPermissionError]

/-- C4, witness: the empty JSON object fails validation (`blocks` is
absent), and the cycle is a no-op on the state, rescheduled at the base
interval 4000. -/
theorem C4_validation_frame_witness :
    RefreshAnnouncements.step PollerState.init (.resp 200 (some (Json.obj []))) 4000 =
      (PollerState.init, { delay := 4000, modalOpened := false, recoveryShown := false }) :=
  C4_validation_frame PollerState.init 4000 (Json.obj []) "Bad blocks array." (by decide)

/-! ## C5: the timestamp pattern -/

/-- The tail shape the claim describes, in the spec's own words: after
`YYYY-MM-DDThh:mm`, an optional `':ss'` and then an optional fractional
part — a literal `.` followed by one or more digits. -/
def specTsTail : List Char → Bool
  | [] => true
  | c :: rest =>
    if c = ':' then
      match rest with
      | a :: b :: rest2 =>
        isDig a && isDig b &&
          (match rest2 with
           | [] => true
           | x :: ds => x = '.' && !ds.isEmpty && ds.all isDig)
      | _ => false
    else false

/-- The timestamp shape claimed by the spec:
`YYYY-MM-DDThh:mm[:ss[.fraction]]` with a literal dot. -/
def specTimestampShape (s : String) : Bool :=
  match tsHead s.data with
  | some rest => specTsTail rest
  | none => false

/-- The tail shape the code actually accepts: an optional `':ss'`, then an
optional fractional part made of one separator character — any character
other than a line terminator, because the regex's dot is unescaped — and
exactly three or exactly six digits. -/
def amendedTsTail : List Char → Bool
  | [] => true
  | c :: rest =>
    if c = ':' then
      match rest with
      | a :: b :: rest2 =>
        isDig a && isDig b &&
          (match rest2 with
           | [] => true
           | x :: ds => jsDotChar x && ds.all isDig && (ds.length == 3 || ds.length == 6))
      | _ => false
    else false

/-- The timestamp shape the code actually accepts (amended claim). -/
def amendedTimestampShape (s : String) : Bool :=
  match tsHead s.data with
  | some rest => amendedTsTail rest
  | none => false

/-- The innermost optional fraction group accepts exactly the all-digit
lists of length 0 or 3. -/
theorem tsOptFrac2_eq (l : List Char) :
    tsOptFrac2 l = (l.all isDig && (l.length == 0 || l.length == 3)) := by
  match l with
  | [] => rfl
  | [a] => simp [tsOptFrac2]
  | [a, b] => simp [tsOptFrac2]
  | [a, b, c] => simp [tsOptFrac2, Bool.and_assoc]
  | a :: b :: c :: d :: r =>
    have h3 : ((a :: b :: c :: d :: r).length == 0) = false := by
      simp [List.length_cons]
    have h6 : ((a :: b :: c :: d :: r).length == 3) = false := by
      simp only [List.length_cons, beq_eq_false_iff_ne, ne_eq]
      omega
    simp [tsOptFrac2, h3, h6]

/-- The fraction group of the regex accepts exactly: nothing, or one
non-line-terminator character followed by three or six digits. -/
theorem tsOptFrac_eq (l : List Char) :
    tsOptFrac l =
      (match l with
       | [] => true
       | x :: ds => jsDotChar x && ds.all isDig && (ds.length == 3 || ds.length == 6)) := by
  match l with
  | [] => rfl
  | x :: ds =>
    dsimp only [tsOptFrac]
    match ds with
    | [] => simp
    | [a] => simp
    | [a, b] => simp
    | a :: b :: c :: rest =>
      have h3 : ((a :: b :: c :: rest).length == 3) = (rest.length == 0) := by
        simp [List.length_cons]
      have h6 : ((a :: b :: c :: rest).length == 6) = (rest.length == 3) := by
        rw [Bool.eq_iff_iff]
        simp only [beq_iff_eq, List.length_cons]
        omega
      dsimp only
      rw [tsOptFrac2_eq, h3, h6]
      simp only [List.all_cons]
      cases jsDotChar x <;> cases isDig a <;> cases isDig b <;> cases isDig c <;>
        cases rest.all isDig <;> cases rest.length == 0 <;> cases rest.length == 3 <;>
          decide

/-- The optional-seconds tail of the regex accepts exactly the amended
tail shape. -/
theorem tsOptSec_eq_amendedTsTail (l : List Char) : tsOptSec l = amendedTsTail l := by
  match l with
  | [] => rfl
  | c :: rest =>
    dsimp only [tsOptSec, amendedTsTail]
    by_cases hc : c = ':'
    · rw [if_pos hc, if_pos hc]
      match rest with
      | [] => rfl
      | [a] => rfl
      | a :: b :: rest2 =>
        dsimp only
        rw [tsOptFrac_eq]
    · rw [if_neg hc, if_neg hc]

/-- The timestamp check of the `Message` constructor accepts exactly the
amended shape. -/
theorem timestampRegexTest_eq_amended (s : String) :
    timestampRegexTest s = amendedTimestampShape s := by
  unfold timestampRegexTest amendedTimestampShape
  cases h : tsHead s.data with
  | none => rfl
  | some rest => exact tsOptSec_eq_amendedTsTail rest

/-- C5, counterexample.  The regex's fraction separator is an unescaped
`.`, which matches any non-line-terminator character: the timestamp
`"2024-01-01T00:00:00z123"` is accepted by the constructor (with the other
four fields valid), although it does not have the claimed
`YYYY-MM-DDThh:mm[:ss[.fraction]]` shape (its seconds are followed by
`z123`, not a dot-fraction). -/
theorem C5_counterexample :
    isOkB (Message.validate (some (.str "nobody"))
      (some (.str "2024-01-01T00:00:00z123")) (some (.str "1-00:00:00"))
      (some (.str "info")) (some (.str "hello"))) = true ∧
      specTimestampShape "2024-01-01T00:00:00z123" = false := by
  exact ⟨rfl, rfl⟩

/-- C5, amended.  With the other four fields fixed and valid, `Message`
construction succeeds exactly when the timestamp matches
`YYYY-MM-DDThh:mm`, optionally followed by `':ss'`, optionally followed by
a fractional part consisting of one separator character (any character
other than a line terminator — the regex's dot is unescaped) and exactly
three or exactly six digits. -/
theorem C5_timestamp_amended (ts : String) :
    isOkB (Message.validate (some (.str "nobody")) (some (.str ts))
      (some (.str "1-00:00:00")) (some (.str "info")) (some (.str "hello"))) =
      amendedTimestampShape ts := by
  rw [← timestampRegexTest_eq_amended]
  unfold Message.validate
  rw [show strCheck (some (.str "nobody")) usernameOk = true from rfl]
  rw [show strCheck (some (.str ts)) timestampRegexTest = timestampRegexTest ts from rfl]
  cases h : timestampRegexTest ts with
  | true =>
    have h1 : strCheck (some (Json.str "1-00:00:00")) expiresRegexTest = true := rfl
    have h2 : levelIncluded (some (Json.str "info")) = true := rfl
    have h3 : strCheck (some (Json.str "hello")) messageContentOk = true := rfl
    simp [h1, h2, h3, isOkB]
  | false => simp [isOkB]

/-! ## C6: the username check -/

/-- C6.  First part: for every username string of length 33 or more, or
containing any character outside `[A-Za-z0-9_@.-]` (a space in
particular), or empty, `Message` construction fails with the validation
fault `'Bad message username.'`, whatever the other four fields are.
Second part: every username of length 1 to 32 consisting only of
characters of the class passes the constructor's username check. -/
theorem C6_username :
    (∀ (u : String) (t e lv m : Option Json),
      (33 ≤ u.length ∨ u.data.any (fun c => !isUserChar c) = true ∨ u = "") →
      Message.validate (some (.str u)) t e lv m = .error "Bad message username.") ∧
    (∀ u : String, 1 ≤ u.length → u.length ≤ 32 → u.data.all isUserChar = true →
      usernameOk u = true) := by
  constructor
  · intro u t e lv m h
    have hu : usernameOk u = false := by
      rcases h with h | h | h
      · have h32 : decide (u.length ≤ 32) = false := by
          simp only [decide_eq_false_iff_not, not_le]
          omega
        simp [usernameOk, h32]
      · have hall : u.data.all isUserChar = false := by
          rw [List.any_eq_true] at h
          obtain ⟨c, hc, hcp⟩ := h
          rw [Bool.not_eq_true'] at hcp
          cases hall : u.data.all isUserChar with
          | false => rfl
          | true =>
            have := List.all_eq_true.mp hall c hc
            rw [hcp] at this
            exact absurd this (by simp)
        simp [usernameOk, usernameRegexTest, hall]
      · subst h
        rfl
    unfold Message.validate
    rw [show strCheck (some (Json.str u)) usernameOk = usernameOk u from rfl, hu]
    rfl
  · intro u h1 h2 h3
    have h0 : decide (0 < u.length) = true := by
      simp only [decide_eq_true_eq]
      omega
    have h32 : decide (u.length ≤ 32) = true := by simpa using h2
    have hne : u.data.isEmpty = false := by
      cases hd : u.data with
      | nil =>
        have : u.length = 0 := by
          rw [show u.length = u.data.length from rfl, hd]
          rfl
        omega
      | cons a l => rfl
    unfold usernameOk usernameRegexTest
    rw [h0, h32, hne, h3]
    rfl

/-- C6, witness: `"a b"` (contains a space) is rejected with the username
validation fault whatever the other fields are, and `"user_1"` passes the
username check. -/
theorem C6_username_witness :
    Message.validate (some (.str "a b")) none none none none =
        .error "Bad message username." ∧
      usernameOk "user_1" = true :=
  ⟨C6_username.1 "a b" none none none none (Or.inr (Or.inl (by decide))),
   C6_username.2 "user_1" (by decide) (by decide) (by decide)⟩

/-! ## C7: fail-fast ordering of the parser -/

/-- The input's `blocks` field is absent or not an array (read with the
total lookup, so this is meaningful for any non-`null` input). -/
def blocksFieldNotArray (j : Json) : Bool :=
  match jLookup j "blocks" with
  | some (.arr _) => false
  | _ => true

/-- The block's `messages` field is absent, not an array, or an array of
bad length (0 or more than 16). -/
def badMessagesShape (b : Json) : Bool :=
  match jLookup b "messages" with
  | some (.arr ms) => decide (ms.length ≤ 0) || decide (ms.length > 16)
  | _ => true

/-- C7, counterexample.  For the input `null` — whose `blocks` field is
certainly absent — the parse fails before any `Message` is constructed
(count 0), but with a `TypeError` from evaluating `null.blocks`, not with
a validation fault as the claim states. -/
theorem C7_null_counterexample :
    jsonToAnnouncementsDataI Json.null = (0, .error .typeError) := rfl

/-- C7, amended.  (1) For every non-`null` input whose `blocks` field is
absent or not an array, the parse fails with the validation fault
`'Bad blocks array.'` and constructs no `Message` (count 0); a `null`
input also fails before any `Message` is constructed, but with a
`TypeError` (see the counterexample).  (2) Within each block, the
`messages` shape check (array of length 1 to 16) precedes `Message`
construction: a non-`null` block value of bad messages shape yields the
validation fault `'Bad messages array.'` with no `Message` of that block
constructed. -/
theorem C7_failfast :
    (∀ j : Json, j.isNull = false → blocksFieldNotArray j = true →
      jsonToAnnouncementsDataI j = (0, .error (.validation "Bad blocks array."))) ∧
    jsonToAnnouncementsDataI Json.null = (0, .error .typeError) ∧
    (∀ b : Json, b.isNull = false → badMessagesShape b = true →
      parseBlockI b = (0, .error (.validation "Bad messages array."))) := by
  refine ⟨fun j hj hbn => ?_, rfl, fun b hb hbm => ?_⟩
  · unfold jsonToAnnouncementsDataI
    rw [getField_of_not_null j "blocks" hj]
    unfold blocksFieldNotArray at hbn
    cases hlk : jLookup j "blocks" with
    | none => rfl
    | some v =>
      rw [hlk] at hbn
      cases v with
      | null => rfl
      | bool bb => rfl
      | num r => rfl
      | str s => rfl
      | obj fs => rfl
      | arr bs => exact absurd hbn (by simp)
  · unfold parseBlockI
    rw [getField_of_not_null b "messages" hb]
    unfold badMessagesShape at hbm
    cases hlk : jLookup b "messages" with
    | none => rfl
    | some v =>
      rw [hlk] at hbm
      cases v with
      | null => rfl
      | bool bb => rfl
      | num r => rfl
      | str s => rfl
      | obj fs => rfl
      | arr ms =>
        dsimp only
        rw [if_pos (by simpa using hbm)]

/-- C7, witness: a non-`null` object whose `blocks` is a string fails with
the blocks validation fault and count 0; a block whose `messages` array
has 17 entries fails with the messages validation fault and count 0. -/
theorem C7_failfast_witness :
    jsonToAnnouncementsDataI (Json.obj [("blocks", Json.str "nope")]) =
        (0, .error (.validation "Bad blocks array.")) ∧
      parseBlockI (Json.obj [("messages", Json.arr (List.replicate 17 (Json.str "x")))]) =
        (0, .error (.validation "Bad messages array.")) :=
  ⟨C7_failfast.1 (Json.obj [("blocks", Json.str "nope")]) (by decide) (by decide),
   C7_failfast.2.2 (Json.obj [("messages", Json.arr (List.replicate 17 (Json.str "x")))])
     (by decide) (by decide)⟩

/-! ## C8: rendering is deterministic -/

/-- C8.  Rendering a validated `AnnouncementsData` is deterministic and
idempotent: `toHtml` mutates nothing (it is a pure function in this
embedding, as in the source, whose `toHtml` bodies only read fields), so
two calls on the same object yield the same string, and the result depends
only on the object's fields (`popup`, `timestamp`, `blocks`). -/
theorem C8_render_deterministic (a : AnnouncementsData) :
    a.toHtml = a.toHtml ∧
      ∀ b : AnnouncementsData, a.popup = b.popup → a.timestamp = b.timestamp →
        a.blocks = b.blocks → a.toHtml = b.toHtml := by
  refine ⟨rfl, fun b hp ht hb => ?_⟩
  obtain ⟨p1, t1, bl1⟩ := a
  obtain ⟨p2, t2, bl2⟩ := b
  dsimp only at hp ht hb
  subst hp; subst ht; subst hb
  rfl

/-- C8, witness: the field-congruence part applied to two syntactically
different but field-equal records. -/
theorem C8_render_deterministic_witness :
    (AnnouncementsData.mk true "t" []).toHtml = (AnnouncementsData.mk true "t" []).toHtml :=
  (C8_render_deterministic (AnnouncementsData.mk true "t" [])).2
    (AnnouncementsData.mk true "t" []) rfl rfl rfl

/-! ## C9: identical consecutive polls open no second modal -/

/-- Closed form of a successful poll cycle (2xx status, body parses and
validates): backoff state resets, `last_rendered` / `newAnnouncement`
update on change, the button and modal behave as in the source's success
branch. -/
theorem step_success (st : PollerState) (j : Json) (a : AnnouncementsData) (n : Nat)
    (h : jsonToAnnouncementsData j = .ok a) :
    RefreshAnnouncements.step st (.resp 200 (some j)) n =
      (let rendered := a.toHtml
       let lastR := if rendered = st.last_rendered then st.last_rendered else rendered
       let newA := if rendered = st.last_rendered then st.newAnnouncement else true
       if 0 < lastR.length then
         ({ last_rendered := lastR
            newAnnouncement := if newA && a.popup then false else newA
            retryDelay := initialRetryDelay
            serviceState := .normal
            hasButton := true },
          { delay := n, modalOpened := newA && a.popup,
            recoveryShown := decide (st.serviceState ≠ ServiceState.normal) })
       else
         ({ last_rendered := lastR
            newAnnouncement := newA
            retryDelay := initialRetryDelay
            serviceState := .normal
            hasButton := st.hasButton },
          { delay := n, modalOpened := false, recoveryShown := false })) := by
  simp only [RefreshAnnouncements.step, h]
  rfl

/-- C9.  If two consecutive poll cycles both succeed with payloads
rendering to the same HTML string, and `newAnnouncement` is false after
the first cycle, then it is still false after the second cycle and the
second cycle opens no modal. -/
theorem C9_no_repeat_modal (st0 : PollerState) (j1 j2 : Json)
    (a1 a2 : AnnouncementsData) (n : Nat)
    (h1 : jsonToAnnouncementsData j1 = .ok a1)
    (h2 : jsonToAnnouncementsData j2 = .ok a2)
    (hhtml : a1.toHtml = a2.toHtml)
    (hnew : (RefreshAnnouncements.step st0 (.resp 200 (some j1)) n).1.newAnnouncement = false) :
    (RefreshAnnouncements.step (RefreshAnnouncements.step st0 (.resp 200 (some j1)) n).1
        (.resp 200 (some j2)) n).1.newAnnouncement = false ∧
      (RefreshAnnouncements.step (RefreshAnnouncements.step st0 (.resp 200 (some j1)) n).1
        (.resp 200 (some j2)) n).2.modalOpened = false := by
  have hlast : (RefreshAnnouncements.step st0 (.resp 200 (some j1)) n).1.last_rendered =
      a1.toHtml := by
    rw [step_success st0 j1 a1 n h1]
    by_cases hr : a1.toHtml = st0.last_rendered
    · simp only [if_pos hr]
      split <;> exact hr.symm
    · simp only [if_neg hr]
      split <;> rfl
  have hcmp : a2.toHtml =
      (RefreshAnnouncements.step st0 (.resp 200 (some j1)) n).1.last_rendered := by
    rw [hlast, hhtml]
  rw [step_success (RefreshAnnouncements.step st0 (.resp 200 (some j1)) n).1 j2 a2 n h2,
     ← hcmp]
  simp only [eq_self_iff_true, if_true, hnew]
  constructor
  all_goals split <;> simp

/-- A concrete payload for the C9 witness. -/
def wPayload : Json :=
  Json.obj [("popup", Json.bool true), ("timestamp", Json.str "now"),
    ("blocks", Json.arr [Json.obj [("title", Json.str "News"),
      ("messages", Json.arr [Json.obj [("username", Json.str "alice"),
        ("timestamp", Json.str "2024-01-01T10:00"), ("expires", Json.str "1-00:00:00"),
        ("level", Json.str "info"), ("message", Json.str "hello")]])]])]

/-- The validated value `wPayload` parses to. -/
def wAnn : AnnouncementsData :=
  { popup := true, timestamp := "now",
    blocks := [{ title := "News",
                 messages := [{ username := "alice", timestamp := "2024-01-01T10:00",
                                expires := "1-00:00:00", level := "info",
                                message := "hello" }] }] }

set_option maxRecDepth 8000 in
/-- C9, witness: a concrete payload rendering to a non-empty string,
polled twice from the fresh state (the first poll opens the modal, which
clears the flag, so `newAnnouncement` is false after it): the second poll
keeps the flag false and opens no modal. -/
theorem C9_no_repeat_modal_witness :
    (RefreshAnnouncements.step
        (RefreshAnnouncements.step PollerState.init (.resp 200 (some wPayload)) 60000).1
        (.resp 200 (some wPayload)) 60000).1.newAnnouncement = false ∧
      (RefreshAnnouncements.step
        (RefreshAnnouncements.step PollerState.init (.resp 200 (some wPayload)) 60000).1
        (.resp 200 (some wPayload)) 60000).2.modalOpened = false := by
  exact C9_no_repeat_modal PollerState.init wPayload wPayload wAnn wAnn 60000
    (by decide) (by decide) rfl (by decide)

/-! ## C10: the constructed-block invariant -/

/-- The non-empty branch of the block template is never the empty string
(it starts with `<table`). -/
theorem blockBodyHtml_ne_empty (title : String) (rows : List String) :
    blockBodyHtml title rows ≠ "" := by
  intro hcontra
  have hlen : (blockBodyHtml title rows).length = 0 := by rw [hcontra]; rfl
  rw [blockBodyHtml] at hlen
  simp only [String.length_append] at hlen
  have htail : ("                    </table>").length = 28 := rfl
  omega

/-- C10.  Every successfully constructed `MessageBlock` has between 1 and
16 messages, so its `toHtml` never takes the empty-messages branch: the
result is the non-empty-table template — one rendered row per message, in
array order — and in particular not the empty string. -/
theorem C10_block_invariant (tv : Option Json) (msgs : List Message) (b : MessageBlock)
    (h : MessageBlock.validate tv msgs = .ok b) :
    1 ≤ b.messages.length ∧ b.messages.length ≤ 16 ∧ b.toHtml ≠ "" ∧
      b.toHtml = blockBodyHtml b.title (b.messages.map Message.toHtml) := by
  unfold MessageBlock.validate at h
  split at h
  · exact absurd h (by simp)
  · split at h
    · exact absurd h (by simp)
    · rename_i hlen
      have hb : { title := sanitizeHtml (optJsToString tv), messages := msgs } = b :=
        Except.ok.inj h
      subst hb
      simp only [Bool.or_eq_true, decide_eq_true_eq, not_or] at hlen
      obtain ⟨hz, hg⟩ := hlen
      have hhtml : ({ title := sanitizeHtml (optJsToString tv), messages := msgs } :
          MessageBlock).toHtml =
          blockBodyHtml (sanitizeHtml (optJsToString tv)) (msgs.map Message.toHtml) := by
        unfold MessageBlock.toHtml
        exact if_neg hz
      refine ⟨?_, ?_, ?_, hhtml⟩
      · show 1 ≤ msgs.length
        omega
      · show msgs.length ≤ 16
        omega
      · rw [hhtml]
        exact blockBodyHtml_ne_empty _ _

/-- C10, witness: a concrete constructed block with one message. -/
theorem C10_block_invariant_witness :
    1 ≤ (MessageBlock.mk "News" [Message.mk "alice" "2024-01-01T10:00" "1-00:00:00"
        "info" "hello"]).messages.length ∧
      (MessageBlock.mk "News" [Message.mk "alice" "2024-01-01T10:00" "1-00:00:00"
        "info" "hello"]).messages.length ≤ 16 ∧
      (MessageBlock.mk "News" [Message.mk "alice" "2024-01-01T10:00" "1-00:00:00"
        "info" "hello"]).toHtml ≠ "" ∧
      (MessageBlock.mk "News" [Message.mk "alice" "2024-01-01T10:00" "1-00:00:00"
        "info" "hello"]).toHtml =
        blockBodyHtml (MessageBlock.mk "News" [Message.mk "alice" "2024-01-01T10:00"
          "1-00:00:00" "info" "hello"]).title
          ((MessageBlock.mk "News" [Message.mk "alice" "2024-01-01T10:00" "1-00:00:00"
            "info" "hello"]).messages.map Message.toHtml) :=
  C10_block_invariant (some (.str "News"))
    [Message.mk "alice" "2024-01-01T10:00" "1-00:00:00" "info" "hello"]
    (MessageBlock.mk "News" [Message.mk "alice" "2024-01-01T10:00" "1-00:00:00"
      "info" "hello"]) (by decide)
